import Mathlib

/-!
Verification of the passkey-kit server core: a shallow embedding of the
challenge-token codec (`src/packages/server/src/challenge-token.ts`, Web
Crypto variant), the store implementations
(`src/packages/server/src/stores.ts`), and the two-mode `PasskeyServer`
orchestrator, together with theorems settling the specification claims.

Modelling conventions:
* AES-256-GCM authenticated encryption is modelled symbolically: a sealed
  box records the derived key, the IV and the plaintext; decryption with a
  candidate key succeeds exactly when the key matches (the authentication
  tag binds key and data), and any structurally malformed or tampered
  token is a distinguished constructor on which every decryption fails.
* HKDF-SHA256 key derivation is modelled as an injective tagging of the
  secret (an ideal KDF: distinct secrets derive distinct keys).
* `JSON.stringify`/`JSON.parse` of the payload record are exact inverses,
  so the plaintext is carried as the payload value itself.
* `Date.now()` and the random IV are effectful in the source and are
  passed as explicit parameters (`now : Nat` in epoch-millis, `iv`).
-/

namespace PasskeyKit

/-- `'registration' | 'authentication'` — the ceremony type tag. -/
inductive CeremonyType
  | registration
  | authentication
deriving DecidableEq, Repr

/-- `ChallengeTokenPayload` from challenge-token.ts:
`{ challenge, userId?, type, exp }`. -/
structure ChallengeTokenPayload where
  challenge : String
  userId : Option String
  type : CeremonyType
  exp : Nat
deriving DecidableEq, Repr

/-- The derived 256-bit AES-GCM key. `deriveKey` uses HKDF-SHA256 with the
fixed info label `passkey-kit-challenge-key`; we model the KDF as an
injective tagging of the secret. -/
structure DerivedKey where
  secret : String
deriving DecidableEq, Repr

/-- `deriveKey(secret)` — HKDF-SHA256(salt = 0^32, info =
`passkey-kit-challenge-key`) applied to the secret. -/
def deriveKey (secret : String) : DerivedKey := ⟨secret⟩

/-- The ciphertext-plus-16-byte-auth-tag produced by `crypto.subtle.encrypt`
with AES-GCM. Symbolic: decryption recovers the plaintext exactly when the
candidate key equals the sealing key. -/
structure GcmSealed where
  key : DerivedKey
  iv : List Nat
  plaintext : ChallengeTokenPayload
deriving DecidableEq, Repr

/-- The byte buffer decoded from a base64url token:
either a well-formed `iv (12 bytes) ‖ ciphertext ‖ tag (16 bytes)` buffer,
or a buffer that is structurally malformed (too short to contain
`IV_LEN + 17` bytes, undecodable, or tampered so that the tag check fails
for every key). -/
inductive TokenBuf
  | sealed (iv : List Nat) (box : GcmSealed)
  | malformed
deriving DecidableEq, Repr

/-- `sealChallengeToken(payload, secret)`: derive the key, draw a fresh IV,
AES-GCM-encrypt the JSON-encoded payload, and emit
`base64url(iv ‖ ciphertext ‖ tag)`. The random IV is an explicit
parameter. -/
def sealChallengeToken (payload : ChallengeTokenPayload) (secret : String)
    (iv : List Nat) : TokenBuf :=
  .sealed iv ⟨deriveKey secret, iv, payload⟩

/-- `openWithKey(buf, secret)`: derive the key, AES-GCM-decrypt (tag check
included), JSON-parse the plaintext, then reject when
`Date.now() > payload.exp`; any failure yields `null`. -/
def openWithKey (buf : TokenBuf) (secret : String) (now : Nat) :
    Option ChallengeTokenPayload :=
  match buf with
  | .malformed => none
  | .sealed _ box =>
    if box.key = deriveKey secret then
      let payload := box.plaintext
      if now > payload.exp then none else some payload
    else none

/-- The `for (const s of secrets)` loop body of `openChallengeToken`: try
each key in order, the first `openWithKey` success wins, `null` when all
fail. -/
def tryKeys (buf : TokenBuf) (secrets : List String) (now : Nat) :
    Option ChallengeTokenPayload :=
  match secrets with
  | [] => none
  | s :: rest =>
    match openWithKey buf s now with
    | some result => some result
    | none => tryKeys buf rest now

/-- `openChallengeToken(token, secret | secret[])`: base64url-decode,
reject buffers shorter than `IV_LEN + 17` bytes, then try each candidate
key in order. A single secret is the one-element list. -/
def openChallengeToken (token : TokenBuf) (secrets : List String)
    (now : Nat) : Option ChallengeTokenPayload :=
  match token with
  | .malformed => none
  | .sealed _ _ => tryKeys token secrets now

/-- A key that differs from the sealing key never decrypts a sealed box. -/
lemma openWithKey_sealed_of_ne (iv : List Nat) (box : GcmSealed)
    (secret : String) (now : Nat) (h : box.key ≠ deriveKey secret) :
    openWithKey (.sealed iv box) secret now = none := by
  simp [openWithKey, h]

/-- The sealing key decrypts an unexpired sealed box to its plaintext. -/
lemma openWithKey_seal_self (payload : ChallengeTokenPayload)
    (secret : String) (iv : List Nat) (now : Nat) (h : ¬ now > payload.exp) :
    openWithKey (sealChallengeToken payload secret iv) secret now
      = some payload := by
  simp [openWithKey, sealChallengeToken, h]

/-- If every key fails individually, the rotation loop fails. -/
lemma tryKeys_eq_none (buf : TokenBuf) (secrets : List String) (now : Nat)
    (h : ∀ s ∈ secrets, openWithKey buf s now = none) :
    tryKeys buf secrets now = none := by
  induction secrets with
  | nil => rfl
  | cons s rest ih =>
    have hs : openWithKey buf s now = none := h s (List.mem_cons_self s rest)
    have hrest : ∀ t ∈ rest, openWithKey buf t now = none :=
      fun t ht => h t (List.mem_cons_of_mem s ht)
    simp [tryKeys, hs, ih hrest]

/-! ## Stores (`src/packages/server/src/stores.ts`) -/

/-- `StoredChallenge` from types.ts:
`{ challenge, userId?, expiresAt, type }`. -/
structure StoredChallenge where
  challenge : String
  userId : Option String
  expiresAt : Nat
  type : CeremonyType
deriving DecidableEq, Repr

/-- The JSON object `Record<string, StoredChallenge>` held by a challenge
store, as an association list with unique keys. -/
abbrev ChallengeMap := List (String × StoredChallenge)

/-- `data[key]` on the challenge object / `Map.get`. -/
def mapLookup : ChallengeMap → String → Option StoredChallenge
  | [], _ => none
  | kv :: rest, key => if kv.1 = key then some kv.2 else mapLookup rest key

/-- `delete data[key]` / `Map.delete`. -/
def eraseKey : ChallengeMap → String → ChallengeMap
  | [], _ => []
  | kv :: rest, key =>
    if kv.1 = key then eraseKey rest key else kv :: eraseKey rest key

/-- `StoredCredential` from types.ts: `{ credentialId, publicKey, counter,
transports?, name?, registeredAt, userId }`. -/
structure StoredCredential where
  credentialId : String
  publicKey : String
  counter : Nat
  transports : Option (List String)
  name : Option String
  registeredAt : String
  userId : String
deriving DecidableEq, Repr

/-- The result of `readFile` + `JSON.parse` on the backing file:
absent (`readFile` raises ENOENT), unreadable (`readFile` raises anything
else, e.g. EACCES), malformed (read succeeds, `JSON.parse` throws), or a
well-formed document. -/
inductive DiskFile (α : Type)
  | absent
  | unreadable
  | malformed
  | wellFormed (data : α)
deriving DecidableEq, Repr

/-- The error surfaced by `load`: the rethrown read error or the
`JSON.parse` SyntaxError — the spec's `StoreCorrupted` class. -/
inductive StoreError
  | parseError
  | readError
deriving DecidableEq, Repr

namespace MemoryChallengeStore

/-- `MemoryChallengeStore.consume(key)`: get; miss → `null`; delete the
entry; then return `null` when `Date.now() > expiresAt`, else the
challenge. Returns (result, new map state). -/
def consume (challenges : ChallengeMap) (key : String) (now : Nat) :
    Option StoredChallenge × ChallengeMap :=
  match mapLookup challenges key with
  | none => (none, challenges)
  | some challenge =>
    let challenges' := eraseKey challenges key
    if now > challenge.expiresAt then (none, challenges')
    else (some challenge, challenges')

end MemoryChallengeStore

namespace FileChallengeStore

/-- `FileChallengeStore.load()`: `readFile` + `JSON.parse`; ENOENT yields
the empty object `{}`; every other failure is rethrown. -/
def load (file : DiskFile ChallengeMap) : Except StoreError ChallengeMap :=
  match file with
  | .wellFormed data => .ok data
  | .absent => .ok []
  | .malformed => .error .parseError
  | .unreadable => .error .readError

/-- `FileChallengeStore.persist(data)`: deletes every entry whose
`expiresAt` has passed, then writes the file; the result is the written
snapshot. -/
def persist : Nat → ChallengeMap → ChallengeMap
  | _, [] => []
  | now, kv :: rest =>
    if now > kv.2.expiresAt then persist now rest
    else kv :: persist now rest

/-- `FileChallengeStore.consume(key)` (under the mutex): load; miss →
`null` (no write); delete the entry; persist (which also prunes expired
entries); then return `null` when expired, else the challenge. Returns
(result, written file state). -/
def consume (data : ChallengeMap) (key : String) (now : Nat) :
    Option StoredChallenge × ChallengeMap :=
  match mapLookup data key with
  | none => (none, data)
  | some challenge =>
    let data' := persist now (eraseKey data key)
    if now > challenge.expiresAt then (none, data')
    else (some challenge, data')

end FileChallengeStore

namespace FileCredentialStore

/-- `FileCredentialStore.load()`: `readFile` + `JSON.parse`; ENOENT yields
the empty array `[]`; every other failure is rethrown. -/
def load (file : DiskFile (List StoredCredential)) :
    Except StoreError (List StoredCredential) :=
  match file with
  | .wellFormed data => .ok data
  | .absent => .ok []
  | .malformed => .error .parseError
  | .unreadable => .error .readError

/-- `FileCredentialStore.getByCredentialId(id)`:
`data.find(c => c.credentialId === credentialId) ?? null`. -/
def getByCredentialId (data : List StoredCredential)
    (credentialId : String) : Option StoredCredential :=
  data.find? (fun c => c.credentialId == credentialId)

/-- The in-place counter mutation of the first record found by
`data.find`. -/
def setCounterFirst : List StoredCredential → String → Nat →
    List StoredCredential
  | [], _, _ => []
  | c :: rest, credentialId, newCounter =>
    if c.credentialId = credentialId then
      { c with counter := newCounter } :: rest
    else c :: setCounterFirst rest credentialId newCounter

/-- `FileCredentialStore.updateCounter(id, newCounter)` (under the mutex):
find the record; when present, set its counter and persist; when absent,
do nothing. Returns the resulting file state. -/
def updateCounter (data : List StoredCredential) (credentialId : String)
    (newCounter : Nat) : List StoredCredential :=
  match data.find? (fun c => c.credentialId == credentialId) with
  | some _ => setCounterFirst data credentialId newCounter
  | none => data

end FileCredentialStore

/-! ## AsyncMutex (`src/packages/server/src/stores.ts`, lines 26-49) -/

/-- The `AsyncMutex` state: the wait queue of pending `acquire` resolvers
(modelled by waiter ids, queue order = array order) and the `locked`
flag. -/
structure AsyncMutex where
  queue : List Nat
  locked : Bool
deriving DecidableEq, Repr

namespace AsyncMutex

/-- A freshly constructed mutex: empty queue, unlocked. -/
def init : AsyncMutex := ⟨[], false⟩

/-- `acquire()`: when unlocked, set `locked` and resolve immediately
(second component `true`); when locked, push the caller's resolver onto
the queue (second component `false`: the caller suspends). -/
def acquire (m : AsyncMutex) (w : Nat) : AsyncMutex × Bool :=
  if m.locked then ({ m with queue := m.queue ++ [w] }, false)
  else ({ m with locked := true }, true)

/-- `release()`: `queue.shift()`; when a waiter exists, hand the lock
directly to it (`locked` stays as it was); otherwise clear `locked`.
The second component is the waiter granted the lock, if any. -/
def release (m : AsyncMutex) : AsyncMutex × Option Nat :=
  match m.queue with
  | next :: rest => ({ m with queue := rest }, some next)
  | [] => ({ m with locked := false }, none)

/-- The states an `AsyncMutex` can reach from construction through
`acquire`/`release` calls. -/
inductive Reachable : AsyncMutex → Prop
  | init : Reachable AsyncMutex.init
  | acquire (w : Nat) {m : AsyncMutex} :
      Reachable m → Reachable (m.acquire w).1
  | release {m : AsyncMutex} : Reachable m → Reachable m.release.1

/-- Invariant: in every reachable state, a non-empty wait queue implies
the lock is held. -/
lemma locked_of_queue_ne_nil {m : AsyncMutex} (h : Reachable m) :
    m.queue ≠ [] → m.locked = true := by
  induction h with
  | init => intro hq; exact absurd rfl hq
  | @acquire w m0 hm ih =>
    intro _
    by_cases hl : m0.locked <;> simp [acquire, hl]
  | @release m0 hm ih =>
    intro hq
    cases hql : m0.queue with
    | nil => simp [release, hql] at hq
    | cons next rest =>
      have hlock : m0.locked = true := ih (by simp [hql])
      simp [release, hql, hlock]

end AsyncMutex

/-! ## PasskeyServer orchestrator (two-mode variant) -/

/-- The typed failures thrown by `PasskeyServer`, one constructor per
distinct `throw new Error(...)` message, plus the construction-time
failure. -/
inductive PasskeyError
  | configurationError
  | challengeNotFoundOrExpired
  | challengeTypeMismatch
  | challengeExpired
  | challengeTokenRequired
  | invalidChallengeToken
  | challengeUserIdMismatch
  | credentialNotFound
  | verificationFailed
deriving DecidableEq, Repr

/-- The spec's `ChallengeInvalid` class: missing/consumed, expired,
purpose or owner mismatch, missing or undecryptable token. -/
def PasskeyError.isChallengeInvalid : PasskeyError → Bool
  | .challengeNotFoundOrExpired => true
  | .challengeTypeMismatch => true
  | .challengeExpired => true
  | .challengeTokenRequired => true
  | .invalidChallengeToken => true
  | .challengeUserIdMismatch => true
  | _ => false

/-- `PasskeyServerConfig` from types.ts; `challengeStore` models the
optional store implementation by its presence. -/
structure PasskeyServerConfig where
  rpName : String
  rpId : String
  allowedOrigins : List String
  challengeStore : Option Unit
  challengeTTL : Option Nat
  encryptionKey : Option String

/-- The fields assigned by the `PasskeyServer` constructor. -/
structure PasskeyServer where
  rpName : String
  rpId : String
  allowedOrigins : List String
  challengeStore : Option Unit
  challengeTTL : Nat
  encryptionKey : Option String
deriving Repr

/-- `DEFAULT_CHALLENGE_TTL = 5 * 60 * 1000`. -/
def DEFAULT_CHALLENGE_TTL : Nat := 5 * 60 * 1000

/-- The `PasskeyServer` constructor: assign every field (TTL defaulted),
then throw when neither `challengeStore` nor `encryptionKey` is
configured. -/
def PasskeyServer.construct (config : PasskeyServerConfig) :
    Except PasskeyError PasskeyServer :=
  let server : PasskeyServer :=
    { rpName := config.rpName
      rpId := config.rpId
      allowedOrigins := config.allowedOrigins
      challengeStore := config.challengeStore
      challengeTTL := config.challengeTTL.getD DEFAULT_CHALLENGE_TTL
      encryptionKey := config.encryptionKey }
  if server.challengeStore.isNone && server.encryptionKey.isNone then
    .error .configurationError
  else .ok server

/-- `verification.authenticationInfo` outcome of the external
`verifyAuthenticationResponse` collaborator: `{ verified, newCounter }`. -/
structure AuthVerification where
  verified : Bool
  newCounter : Nat
deriving DecidableEq, Repr

/-- `AuthenticationResult` from types.ts. -/
structure AuthenticationResult where
  credentialId : String
  userId : String
  verified : Bool
  newCounter : Nat
deriving DecidableEq, Repr

/-- The credential material the external registration verifier returns in
`registrationInfo.credential`. -/
structure RegCredential where
  id : String
  publicKey : String
  counter : Nat
deriving DecidableEq, Repr

/-- Outcome of the external `verifyRegistrationResponse` collaborator:
`{ verified, registrationInfo? }`. -/
structure RegVerification where
  verified : Bool
  registrationInfo : Option RegCredential
deriving DecidableEq, Repr

/-- `RegistrationResult` from types.ts. -/
structure RegistrationResult where
  credential : StoredCredential
  verified : Bool
deriving DecidableEq, Repr

/-- Lines 489-521 of the two-mode `verifyAuthentication`, shared by both
modes: look the presented credential id up (`Credential not found` when
absent), call the external verifier, and on success update the counter
via `FileCredentialStore.updateCounter` and return the result. The
verifier collaborator is passed as a function of the expected challenge
and the stored credential. -/
def verifyAuthenticationTail (credentialStore : List StoredCredential)
    (expectedChallenge : String) (respId : String)
    (verifyResponse : String → StoredCredential → AuthVerification) :
    Except PasskeyError AuthenticationResult × List StoredCredential :=
  match FileCredentialStore.getByCredentialId credentialStore respId with
  | none => (.error .credentialNotFound, credentialStore)
  | some credential =>
    let verification := verifyResponse expectedChallenge credential
    if verification.verified then
      let newCounter := verification.newCounter
      (.ok ⟨respId, credential.userId, true, newCounter⟩,
       FileCredentialStore.updateCounter credentialStore respId newCounter)
    else (.error .verificationFailed, credentialStore)

/-- `verifyAuthentication` with `this.challengeStore` present (stateful
branch), instantiated with the file challenge store: consume the session
key, check type and expiry, then run the shared tail. Returns (result,
challenge store state, credential store state). -/
def verifyAuthenticationStateful (challengeStore : ChallengeMap)
    (credentialStore : List StoredCredential) (sessionKey : String)
    (respId : String)
    (verifyResponse : String → StoredCredential → AuthVerification)
    (now : Nat) :
    Except PasskeyError AuthenticationResult × ChallengeMap ×
      List StoredCredential :=
  let consumed := FileChallengeStore.consume challengeStore sessionKey now
  match consumed.1 with
  | none => (.error .challengeNotFoundOrExpired, consumed.2, credentialStore)
  | some storedChallenge =>
    if storedChallenge.type ≠ .authentication then
      (.error .challengeTypeMismatch, consumed.2, credentialStore)
    else if now > storedChallenge.expiresAt then
      (.error .challengeExpired, consumed.2, credentialStore)
    else
      let tail := verifyAuthenticationTail credentialStore
        storedChallenge.challenge respId verifyResponse
      (tail.1, consumed.2, tail.2)

/-- `verifyAuthentication` without `this.challengeStore` (stateless
branch): the session key is the sealed token itself; open it with the
configured encryption key, check type, then run the shared tail. Note the
source never compares the token's `userId` with anything here. -/
def verifyAuthenticationStateless (encryptionKey : String)
    (credentialStore : List StoredCredential) (sessionKey : TokenBuf)
    (respId : String)
    (verifyResponse : String → StoredCredential → AuthVerification)
    (now : Nat) :
    Except PasskeyError AuthenticationResult × List StoredCredential :=
  match openChallengeToken sessionKey [encryptionKey] now with
  | none => (.error .invalidChallengeToken, credentialStore)
  | some payload =>
    if payload.type ≠ .authentication then
      (.error .challengeTypeMismatch, credentialStore)
    else
      verifyAuthenticationTail credentialStore payload.challenge respId
        verifyResponse

/-- The tail of `verifyRegistration` shared by both modes: call the
external registration verifier, fail unless it verified and returned
`registrationInfo`, then build the `StoredCredential` and append it to
the credential store (`save`). `nowIso` is `new Date().toISOString()`;
`respTransports` is `response.response.transports`. -/
def verifyRegistrationTail (credentialStore : List StoredCredential)
    (userId : String) (credentialName : Option String)
    (respTransports : Option (List String)) (expectedChallenge : String)
    (verifyResponse : String → RegVerification) (nowIso : String) :
    Except PasskeyError RegistrationResult × List StoredCredential :=
  let verification := verifyResponse expectedChallenge
  match verification.registrationInfo, verification.verified with
  | some credential, true =>
    let storedCredential : StoredCredential :=
      { credentialId := credential.id
        publicKey := credential.publicKey
        counter := credential.counter
        transports := some (respTransports.getD [])
        name := some (credentialName.getD "Passkey")
        registeredAt := nowIso
        userId := userId }
    (.ok ⟨storedCredential, true⟩, credentialStore ++ [storedCredential])
  | _, _ => (.error .verificationFailed, credentialStore)

/-- `verifyRegistration` with `this.challengeStore` present (stateful
branch), instantiated with the file challenge store: consume under the
presented `userId`, check type and expiry, then run the shared tail. -/
def verifyRegistrationStateful (challengeStore : ChallengeMap)
    (credentialStore : List StoredCredential) (userId : String)
    (credentialName : Option String) (respTransports : Option (List String))
    (verifyResponse : String → RegVerification) (now : Nat)
    (nowIso : String) :
    Except PasskeyError RegistrationResult × ChallengeMap ×
      List StoredCredential :=
  let consumed := FileChallengeStore.consume challengeStore userId now
  match consumed.1 with
  | none => (.error .challengeNotFoundOrExpired, consumed.2, credentialStore)
  | some storedChallenge =>
    if storedChallenge.type ≠ .registration then
      (.error .challengeTypeMismatch, consumed.2, credentialStore)
    else if now > storedChallenge.expiresAt then
      (.error .challengeExpired, consumed.2, credentialStore)
    else
      let tail := verifyRegistrationTail credentialStore userId
        credentialName respTransports storedChallenge.challenge
        verifyResponse nowIso
      (tail.1, consumed.2, tail.2)

/-- `verifyRegistration` without `this.challengeStore` (stateless branch):
require the challenge token, open it, check type, check that the token's
`userId` equals the presented one, then run the shared tail. -/
def verifyRegistrationStateless (encryptionKey : String)
    (credentialStore : List StoredCredential) (userId : String)
    (challengeToken : Option TokenBuf) (credentialName : Option String)
    (respTransports : Option (List String))
    (verifyResponse : String → RegVerification) (now : Nat)
    (nowIso : String) :
    Except PasskeyError RegistrationResult × List StoredCredential :=
  match challengeToken with
  | none => (.error .challengeTokenRequired, credentialStore)
  | some token =>
    match openChallengeToken token [encryptionKey] now with
    | none => (.error .invalidChallengeToken, credentialStore)
    | some payload =>
      if payload.type ≠ .registration then
        (.error .challengeTypeMismatch, credentialStore)
      else if payload.userId ≠ some userId then
        (.error .challengeUserIdMismatch, credentialStore)
      else
        verifyRegistrationTail credentialStore userId credentialName
          respTransports payload.challenge verifyResponse nowIso

/-! ## Map helper lemmas -/

/-- A key absent from a map stays absent after any filter-style pruning
pass (`persist`). -/
lemma mapLookup_persist_none (now : Nat) (data : ChallengeMap)
    (key : String) (h : mapLookup data key = none) :
    mapLookup (FileChallengeStore.persist now data) key = none := by
  induction data with
  | nil => rfl
  | cons kv rest ih =>
    by_cases hk : kv.1 = key
    · simp [mapLookup, hk] at h
    · simp [mapLookup, hk] at h
      by_cases he : now > kv.2.expiresAt
      · simp [FileChallengeStore.persist, he, ih h]
      · simp [FileChallengeStore.persist, he, mapLookup, hk, ih h]

/-- `delete data[key]` removes the binding of `key`. -/
lemma mapLookup_eraseKey_self (data : ChallengeMap) (key : String) :
    mapLookup (eraseKey data key) key = none := by
  induction data with
  | nil => rfl
  | cons kv rest ih =>
    by_cases hk : kv.1 = key
    · simp [eraseKey, hk, ih]
    · simp [eraseKey, hk, mapLookup, ih]

/-- After a successful-lookup `consume`, the key is gone from the written
file state. -/
lemma fileConsume_lookup_none (data : ChallengeMap) (key : String)
    (now : Nat) (c : StoredChallenge) (h : mapLookup data key = some c) :
    mapLookup (FileChallengeStore.consume data key now).2 key = none := by
  have herase := mapLookup_eraseKey_self data key
  have hpruned := mapLookup_persist_none now (eraseKey data key) key herase
  by_cases he : now > c.expiresAt
  · simp [FileChallengeStore.consume, h, he, hpruned]
  · simp [FileChallengeStore.consume, h, he, hpruned]

/-- C1: For every challenge payload P whose embedded expiry lies in the
future and every secret K, opening the token produced by sealing P under K,
with the key list [K], returns P:
`openChallengeToken(sealChallengeToken(P, K), [K]) == P`. -/
theorem seal_open_roundtrip (payload : ChallengeTokenPayload)
    (secret : String) (iv : List Nat) (now : Nat) (h : now < payload.exp) :
    openChallengeToken (sealChallengeToken payload secret iv) [secret] now
      = some payload := by
  have hn : ¬ now > payload.exp := Nat.not_lt.mpr (Nat.le_of_lt h)
  simp [openChallengeToken, sealChallengeToken, tryKeys, openWithKey, hn]

/-- Witness for C1 at a concrete payload, secret, IV and clock. -/
theorem seal_open_roundtrip_witness :
    (0 : Nat) < 300000
  ∧ openChallengeToken
      (sealChallengeToken ⟨"chal-bytes", some "u1", .registration, 300000⟩
        "shh-0123456789abcdef0123456789abcdef" [3, 1, 4])
      ["shh-0123456789abcdef0123456789abcdef"] 0
      = some ⟨"chal-bytes", some "u1", .registration, 300000⟩ :=
  ⟨by decide,
   seal_open_roundtrip ⟨"chal-bytes", some "u1", .registration, 300000⟩
     "shh-0123456789abcdef0123456789abcdef" [3, 1, 4] 0 (by decide)⟩

/-- C4: `openChallengeToken` tries the candidate keys first to last; the
first key whose decryption and expiry check both succeed determines the
result; if every key fails it returns invalid (`null`, never a thrown
error); a token sealed with K2 opens with `[K1, K2]` (K1 ≠ K2) but fails
with `[K1]` alone. -/
theorem open_key_rotation (buf : TokenBuf) (secrets : List String)
    (now : Nat) :
    (∀ s rest p, openWithKey buf s now = some p →
        openChallengeToken buf (s :: rest) now = some p)
  ∧ (∀ s rest, openWithKey buf s now = none →
        openChallengeToken buf (s :: rest) now
          = openChallengeToken buf rest now)
  ∧ ((∀ s ∈ secrets, openWithKey buf s now = none) →
        openChallengeToken buf secrets now = none)
  ∧ (∀ payload k1 k2 iv, k1 ≠ k2 → now < payload.exp →
        openChallengeToken (sealChallengeToken payload k2 iv) [k1, k2] now
          = some payload
      ∧ openChallengeToken (sealChallengeToken payload k2 iv) [k1] now
          = none) := by
  refine ⟨?_, ?_, ?_, ?_⟩
  · intro s rest p hp
    cases buf with
    | malformed => simp [openWithKey] at hp
    | sealed iv box => simp [openChallengeToken, tryKeys, hp]
  · intro s rest hs
    cases buf with
    | malformed => rfl
    | sealed iv box => simp [openChallengeToken, tryKeys, hs]
  · intro hall
    cases buf with
    | malformed => rfl
    | sealed iv box => simp [openChallengeToken, tryKeys_eq_none _ _ _ hall]
  · intro payload k1 k2 iv hne hfut
    have hkey : deriveKey k2 ≠ deriveKey k1 :=
      fun hc => hne (congrArg DerivedKey.secret hc).symm
    have hn : ¬ now > payload.exp := Nat.not_lt.mpr (Nat.le_of_lt hfut)
    constructor
    · simp [openChallengeToken, sealChallengeToken, tryKeys, openWithKey,
        hkey, hn]
    · simp [openChallengeToken, sealChallengeToken, tryKeys, openWithKey,
        hkey]

/-- Witness for C4: concrete key rotation, K1 = "old", K2 = "new". -/
theorem open_key_rotation_witness :
    openChallengeToken
      (sealChallengeToken ⟨"c", none, .authentication, 77⟩ "new" [9])
      ["old", "new"] 5
      = some ⟨"c", none, .authentication, 77⟩
  ∧ openChallengeToken
      (sealChallengeToken ⟨"c", none, .authentication, 77⟩ "new" [9])
      ["old"] 5
      = none :=
  (open_key_rotation
      (sealChallengeToken ⟨"c", none, .authentication, 77⟩ "new" [9]) [] 5).2.2.2
    ⟨"c", none, .authentication, 77⟩ "old" "new" [9] (by decide) (by decide)

/-- C5: a token whose embedded plaintext expiry is strictly in the past is
rejected (`null`) for every candidate key list, even when decryption and
tag verification would succeed for one of the supplied keys. -/
theorem open_rejects_expired (iv : List Nat) (box : GcmSealed)
    (secrets : List String) (now : Nat) (h : box.plaintext.exp < now) :
    openChallengeToken (.sealed iv box) secrets now = none := by
  have hall : ∀ s ∈ secrets, openWithKey (.sealed iv box) s now = none := by
    intro s _
    by_cases hk : box.key = deriveKey s
    · simp [openWithKey, hk, h]
    · simp [openWithKey, hk]
  simp [openChallengeToken, tryKeys_eq_none _ _ _ hall]

/-- Witness for C5: an expired token sealed under the very key supplied. -/
theorem open_rejects_expired_witness :
    openChallengeToken
      (sealChallengeToken ⟨"c", some "u", .authentication, 10⟩ "k" [2])
      ["k"] 11
      = none :=
  open_rejects_expired [2] ⟨deriveKey "k", [2], ⟨"c", some "u", .authentication, 10⟩⟩
    ["k"] 11 (by decide)

/-- C6: a stateful challenge saved under key `k`, still unexpired, is
consumed exactly once: the first complete succeeds and deletes the entry,
and completion against a key with no stored challenge fails with
`Challenge not found or expired` (consume returns `null`) — so every
subsequent complete on `k` fails. -/
theorem stateful_complete_consumes_once (challengeStore : ChallengeMap)
    (credentialStore : List StoredCredential) (k respId : String)
    (c : StoredChallenge) (cred : StoredCredential)
    (verifyResponse : String → StoredCredential → AuthVerification)
    (now : Nat)
    (hlook : mapLookup challengeStore k = some c)
    (htype : c.type = .authentication)
    (hexp : ¬ now > c.expiresAt)
    (hcred : FileCredentialStore.getByCredentialId credentialStore respId
      = some cred)
    (hver : (verifyResponse c.challenge cred).verified = true) :
    (verifyAuthenticationStateful challengeStore credentialStore k respId
        verifyResponse now).1
      = .ok ⟨respId, cred.userId, true,
          (verifyResponse c.challenge cred).newCounter⟩
  ∧ mapLookup (verifyAuthenticationStateful challengeStore credentialStore
        k respId verifyResponse now).2.1 k = none
  ∧ (∀ (chal2 : ChallengeMap), mapLookup chal2 k = none →
      ∀ (creds2 : List StoredCredential) (respId2 : String)
        (verify2 : String → StoredCredential → AuthVerification)
        (now2 : Nat),
        (FileChallengeStore.consume chal2 k now2).1 = none
      ∧ (verifyAuthenticationStateful chal2 creds2 k respId2 verify2
            now2).1 = .error .challengeNotFoundOrExpired) := by
  have hdel := fileConsume_lookup_none challengeStore k now c hlook
  refine ⟨?_, ?_, ?_⟩
  · simp [verifyAuthenticationStateful, FileChallengeStore.consume, hlook,
      hexp, htype, verifyAuthenticationTail, hcred, hver]
  · simpa [verifyAuthenticationStateful, FileChallengeStore.consume, hlook,
      hexp, htype] using hdel
  · intro chal2 h2 creds2 respId2 verify2 now2
    constructor
    · simp [FileChallengeStore.consume, h2]
    · simp [verifyAuthenticationStateful, FileChallengeStore.consume, h2]

/-- Witness for C6 at a concrete store, challenge and verifier. -/
theorem stateful_complete_consumes_once_witness :
    (verifyAuthenticationStateful
        [("k", ⟨"ch", some "u1", 100, .authentication⟩)]
        [⟨"cid", "pk", 0, none, none, "t0", "u1"⟩] "k" "cid"
        (fun _ _ => ⟨true, 3⟩) 50).1
      = .ok ⟨"cid", "u1", true, 3⟩
  ∧ (verifyAuthenticationStateful [] [] "k" "cid2"
        (fun _ _ => ⟨true, 3⟩) 60).1
      = .error .challengeNotFoundOrExpired := by
  have h := stateful_complete_consumes_once
    [("k", ⟨"ch", some "u1", 100, .authentication⟩)]
    [⟨"cid", "pk", 0, none, none, "t0", "u1"⟩] "k" "cid"
    ⟨"ch", some "u1", 100, .authentication⟩
    ⟨"cid", "pk", 0, none, none, "t0", "u1"⟩
    (fun _ _ => ⟨true, 3⟩) 50 (by decide) rfl (by decide) (by decide) rfl
  exact ⟨h.1, (h.2.2 [] rfl [] "cid2" (fun _ _ => ⟨true, 3⟩) 60).2⟩

/-- C7: the file stores' `load` raises an explicit error when the backing
file exists but cannot be parsed as JSON, and on any read failure other
than absence; when the file is absent (ENOENT, first use) it returns the
empty initial state without error. -/
theorem file_load_corrupt_errors :
    (FileChallengeStore.load .absent = .ok []
      ∧ FileChallengeStore.load .malformed = .error .parseError
      ∧ FileChallengeStore.load .unreadable = .error .readError)
  ∧ (FileCredentialStore.load .absent = .ok []
      ∧ FileCredentialStore.load .malformed = .error .parseError
      ∧ FileCredentialStore.load .unreadable = .error .readError) :=
  ⟨⟨rfl, rfl, rfl⟩, ⟨rfl, rfl, rfl⟩⟩

/-- C8: the AsyncMutex is strictly FIFO: in every reachable state, a
release hands the lock directly to the head of the wait queue (the
longest-waiting waiter) and the lock stays held while waiters exist, and
an acquire issued while the lock is held is appended behind all existing
waiters, so a fresh acquire never overtakes a queued one. -/
theorem asyncMutex_fifo (m : AsyncMutex) (h : AsyncMutex.Reachable m) :
    (∀ next rest, m.queue = next :: rest →
        m.release.2 = some next
      ∧ m.release.1.queue = rest
      ∧ m.release.1.locked = true)
  ∧ (m.locked = true → ∀ w,
        (m.acquire w).1.queue = m.queue ++ [w]
      ∧ (m.acquire w).1.locked = true) := by
  constructor
  · intro next rest hq
    have hlock : m.locked = true :=
      AsyncMutex.locked_of_queue_ne_nil h (by simp [hq])
    refine ⟨?_, ?_, ?_⟩ <;> simp [AsyncMutex.release, hq, hlock]
  · intro hl w
    constructor <;> simp [AsyncMutex.acquire, hl]

/-- Witness for C8 at the reachable state with lock held and one queued
waiter. -/
theorem asyncMutex_fifo_witness :
    (AsyncMutex.mk [8] true).release.2 = some 8
  ∧ (AsyncMutex.mk [8] true).release.1.locked = true
  ∧ ((AsyncMutex.mk [8] true).acquire 9).1.queue = [8, 9] := by
  have hr : AsyncMutex.Reachable ⟨[8], true⟩ := by
    have h1 := AsyncMutex.Reachable.acquire 7 AsyncMutex.Reachable.init
    have h2 := AsyncMutex.Reachable.acquire 8 h1
    simpa [AsyncMutex.init, AsyncMutex.acquire] using h2
  have h := asyncMutex_fifo ⟨[8], true⟩ hr
  exact ⟨(h.1 8 [] rfl).1, (h.1 8 [] rfl).2.2, (h.2 rfl 9).1⟩

/-- C9: when authentication completion resolves a valid challenge but the
presented credential id is absent from the credential store, the call
fails with `Credential not found` and the credential store is returned
unchanged — no counter is mutated anywhere. Holds in both modes. -/
theorem auth_credential_not_found_frame (challengeStore : ChallengeMap)
    (credentialStore : List StoredCredential) (k respId : String)
    (c : StoredChallenge)
    (verifyResponse : String → StoredCredential → AuthVerification)
    (now : Nat)
    (hlook : mapLookup challengeStore k = some c)
    (htype : c.type = .authentication)
    (hexp : ¬ now > c.expiresAt)
    (habs : FileCredentialStore.getByCredentialId credentialStore respId
      = none) :
    ((verifyAuthenticationStateful challengeStore credentialStore k respId
        verifyResponse now).1 = .error .credentialNotFound
      ∧ (verifyAuthenticationStateful challengeStore credentialStore k
          respId verifyResponse now).2.2 = credentialStore)
  ∧ (∀ (encryptionKey : String) (sessionKey : TokenBuf)
        (payload : ChallengeTokenPayload),
      openChallengeToken sessionKey [encryptionKey] now = some payload →
      payload.type = .authentication →
      verifyAuthenticationStateless encryptionKey credentialStore
          sessionKey respId verifyResponse now
        = (.error .credentialNotFound, credentialStore)) := by
  constructor
  · constructor <;>
      simp [verifyAuthenticationStateful, FileChallengeStore.consume,
        hlook, hexp, htype, verifyAuthenticationTail, habs]
  · intro encryptionKey sessionKey payload hopen htype2
    simp [verifyAuthenticationStateless, hopen, htype2,
      verifyAuthenticationTail, habs]

/-- Witness for C9: empty credential store, both modes. -/
theorem auth_credential_not_found_frame_witness :
    ((verifyAuthenticationStateful
        [("k", ⟨"ch", none, 100, .authentication⟩)] [] "k" "cid"
        (fun _ _ => ⟨true, 3⟩) 50).1 = .error .credentialNotFound
      ∧ (verifyAuthenticationStateful
          [("k", ⟨"ch", none, 100, .authentication⟩)] [] "k" "cid"
          (fun _ _ => ⟨true, 3⟩) 50).2.2 = [])
  ∧ verifyAuthenticationStateless "sek" []
      (sealChallengeToken ⟨"ch", none, .authentication, 100⟩ "sek" [1])
      "cid" (fun _ _ => ⟨true, 3⟩) 50
      = (.error .credentialNotFound, []) := by
  have h := auth_credential_not_found_frame
    [("k", ⟨"ch", none, 100, .authentication⟩)] [] "k" "cid"
    ⟨"ch", none, 100, .authentication⟩ (fun _ _ => ⟨true, 3⟩) 50
    (by decide) rfl (by decide) rfl
  exact ⟨h.1, h.2 "sek" _ ⟨"ch", none, .authentication, 100⟩ (by decide) rfl⟩

/-- C10: `consume(k)` on an already-expired stored challenge returns
`null` but still deletes the entry, so a subsequent `consume(k)` also
returns `null` because the entry is gone — for both the memory and the
file challenge store. -/
theorem consume_expired_deletes (data : ChallengeMap) (k : String)
    (c : StoredChallenge) (now now2 : Nat)
    (hlook : mapLookup data k = some c) (hexp : now > c.expiresAt) :
    (MemoryChallengeStore.consume data k now).1 = none
  ∧ mapLookup (MemoryChallengeStore.consume data k now).2 k = none
  ∧ (MemoryChallengeStore.consume
      (MemoryChallengeStore.consume data k now).2 k now2).1 = none
  ∧ (FileChallengeStore.consume data k now).1 = none
  ∧ mapLookup (FileChallengeStore.consume data k now).2 k = none
  ∧ (FileChallengeStore.consume
      (FileChallengeStore.consume data k now).2 k now2).1 = none := by
  have hm2 : mapLookup (MemoryChallengeStore.consume data k now).2 k
      = none := by
    simp [MemoryChallengeStore.consume, hlook, hexp,
      mapLookup_eraseKey_self]
  have hf2 : mapLookup (FileChallengeStore.consume data k now).2 k
      = none := fileConsume_lookup_none data k now c hlook
  refine ⟨?_, hm2, ?_, ?_, hf2, ?_⟩
  · simp [MemoryChallengeStore.consume, hlook, hexp]
  · have hstate : MemoryChallengeStore.consume data k now
        = (none, eraseKey data k) := by
      simp [MemoryChallengeStore.consume, hlook, hexp]
    rw [hstate]
    simp [MemoryChallengeStore.consume, mapLookup_eraseKey_self]
  · simp [FileChallengeStore.consume, hlook, hexp]
  · have hstate : FileChallengeStore.consume data k now
        = (none, FileChallengeStore.persist now (eraseKey data k)) := by
      simp [FileChallengeStore.consume, hlook, hexp]
    rw [hstate]
    have hnone : mapLookup
        (FileChallengeStore.persist now (eraseKey data k)) k = none :=
      mapLookup_persist_none now _ k (mapLookup_eraseKey_self data k)
    simp [FileChallengeStore.consume, hnone]

/-- Witness for C10 at a concrete expired entry. -/
theorem consume_expired_deletes_witness :
    (MemoryChallengeStore.consume
        [("k", ⟨"ch", none, 10, .authentication⟩)] "k" 11).1 = none
  ∧ (FileChallengeStore.consume
        [("k", ⟨"ch", none, 10, .authentication⟩)] "k" 11).1 = none := by
  have h := consume_expired_deletes
    [("k", ⟨"ch", none, 10, .authentication⟩)] "k"
    ⟨"ch", none, 10, .authentication⟩ 11 12 (by decide) (by decide)
  exact ⟨h.1, h.2.2.2.1⟩

/-- C2 (amended): in both modes both completions verify that the resolved
challenge's recorded purpose equals the purpose being completed, failing
with a ChallengeInvalid-class error on mismatch. The owner-identity check
at completion is performed by `verifyRegistration` only (stateless mode
compares the token's `userId` with the presented one explicitly; stateful
mode consumes under the presented identity, so a challenge bound to a
different identity is simply not found); `verifyAuthentication` performs
no owner-binding check in either mode. -/
theorem purpose_and_registration_identity_checks
    (challengeStore : ChallengeMap)
    (credentialStore : List StoredCredential)
    (userId sessionKey respId encryptionKey : String) (token : TokenBuf)
    (payload : ChallengeTokenPayload) (c : StoredChallenge)
    (credentialName : Option String)
    (respTransports : Option (List String))
    (verifyReg : String → RegVerification)
    (verifyAuth : String → StoredCredential → AuthVerification)
    (now : Nat) (nowIso : String) :
    (mapLookup challengeStore userId = some c → ¬ now > c.expiresAt →
      c.type ≠ .registration →
      (verifyRegistrationStateful challengeStore credentialStore userId
        credentialName respTransports verifyReg now nowIso).1
        = .error .challengeTypeMismatch)
  ∧ (mapLookup challengeStore sessionKey = some c → ¬ now > c.expiresAt →
      c.type ≠ .authentication →
      (verifyAuthenticationStateful challengeStore credentialStore
        sessionKey respId verifyAuth now).1
        = .error .challengeTypeMismatch)
  ∧ (openChallengeToken token [encryptionKey] now = some payload →
      payload.type ≠ .registration →
      (verifyRegistrationStateless encryptionKey credentialStore userId
        (some token) credentialName respTransports verifyReg now
        nowIso).1 = .error .challengeTypeMismatch)
  ∧ (openChallengeToken token [encryptionKey] now = some payload →
      payload.type = .registration → payload.userId ≠ some userId →
      (verifyRegistrationStateless encryptionKey credentialStore userId
        (some token) credentialName respTransports verifyReg now
        nowIso).1 = .error .challengeUserIdMismatch)
  ∧ (openChallengeToken token [encryptionKey] now = some payload →
      payload.type ≠ .authentication →
      (verifyAuthenticationStateless encryptionKey credentialStore token
        respId verifyAuth now).1 = .error .challengeTypeMismatch)
  ∧ (mapLookup challengeStore userId = none →
      (verifyRegistrationStateful challengeStore credentialStore userId
        credentialName respTransports verifyReg now nowIso).1
        = .error .challengeNotFoundOrExpired)
  ∧ (PasskeyError.challengeTypeMismatch.isChallengeInvalid = true
      ∧ PasskeyError.challengeUserIdMismatch.isChallengeInvalid = true
      ∧ PasskeyError.challengeNotFoundOrExpired.isChallengeInvalid
          = true) := by
  refine ⟨?_, ?_, ?_, ?_, ?_, ?_, rfl, rfl, rfl⟩
  · intro hlook hexp htype
    simp [verifyRegistrationStateful, FileChallengeStore.consume, hlook,
      hexp, htype]
  · intro hlook hexp htype
    simp [verifyAuthenticationStateful, FileChallengeStore.consume, hlook,
      hexp, htype]
  · intro hopen htype
    simp [verifyRegistrationStateless, hopen, htype]
  · intro hopen htype huser
    simp [verifyRegistrationStateless, hopen, htype, huser]
  · intro hopen htype
    simp [verifyAuthenticationStateless, hopen, htype]
  · intro hlook
    simp [verifyRegistrationStateful, FileChallengeStore.consume, hlook]

/-- Witness for the amended C2: a stateless registration completion whose
token is bound to "alice" but presented by "bob" fails with the
userId-mismatch error. -/
theorem purpose_and_registration_identity_checks_witness :
    (verifyRegistrationStateless "sek" [] "bob"
      (some (sealChallengeToken ⟨"ch", some "alice", .registration, 1000⟩
        "sek" [1]))
      none none (fun _ => ⟨true, some ⟨"id", "pk", 0⟩⟩) 0 "t0").1
      = .error .challengeUserIdMismatch := by
  have h := purpose_and_registration_identity_checks [] [] "bob" "sk"
    "rid" "sek"
    (sealChallengeToken ⟨"ch", some "alice", .registration, 1000⟩ "sek" [1])
    ⟨"ch", some "alice", .registration, 1000⟩
    ⟨"x", none, 0, .registration⟩ none none
    (fun _ => ⟨true, some ⟨"id", "pk", 0⟩⟩) (fun _ _ => ⟨true, 0⟩) 0 "t0"
  exact h.2.2.2.1 (by decide) rfl (by decide)

/-- C2 counterexample: in stateless mode `verifyAuthentication` never
compares the token's bound `userId` with the owner of the presented
credential: a challenge bound to "alice" at begin completes successfully
with a credential owned by "bob" (and bumps bob's counter), instead of
failing with a ChallengeInvalid error. -/
theorem auth_ignores_bound_identity_cex :
    verifyAuthenticationStateless "sek"
      [⟨"cred-1", "pk", 0, none, none, "t0", "bob"⟩]
      (sealChallengeToken ⟨"ch", some "alice", .authentication, 1000⟩
        "sek" [1])
      "cred-1" (fun _ _ => ⟨true, 5⟩) 0
      = (.ok ⟨"cred-1", "bob", true, 5⟩,
         [⟨"cred-1", "pk", 5, none, none, "t0", "bob"⟩])
  ∧ some "alice" ≠ some "bob" := by
  constructor
  · rfl
  · decide

/-- C3 (amended): construction fails with the configuration error exactly
when neither a challenge store nor an encryption key is configured (so no
ceremony call is possible then, the constructor returning no server);
when both are configured construction succeeds, keeping both fields, and
the mode dispatch's `if (this.challengeStore)` test makes stateful mode
take precedence. -/
theorem construct_requires_some_mode (config : PasskeyServerConfig) :
    ((PasskeyServer.construct config).isOk = false ↔
        config.challengeStore = none ∧ config.encryptionKey = none)
  ∧ (config.challengeStore = none → config.encryptionKey = none →
      PasskeyServer.construct config = .error .configurationError)
  ∧ (∀ server, PasskeyServer.construct config = .ok server →
      server.challengeStore = config.challengeStore
    ∧ server.encryptionKey = config.encryptionKey) := by
  refine ⟨⟨?_, ?_⟩, ?_, ?_⟩
  · intro hfail
    by_cases hs : config.challengeStore.isNone <;>
      by_cases he : config.encryptionKey.isNone
    · exact ⟨Option.isNone_iff_eq_none.mp hs,
        Option.isNone_iff_eq_none.mp he⟩
    · simp [PasskeyServer.construct, Except.isOk, Except.toBool, hs, he] at hfail
    · simp [PasskeyServer.construct, Except.isOk, Except.toBool, hs, he] at hfail
    · simp [PasskeyServer.construct, Except.isOk, Except.toBool, hs, he] at hfail
  · rintro ⟨h1, h2⟩
    simp [PasskeyServer.construct, Except.isOk, Except.toBool, h1, h2]
  · intro h1 h2
    simp [PasskeyServer.construct, h1, h2]
  · intro server hok
    by_cases hs : config.challengeStore.isNone <;>
      by_cases he : config.encryptionKey.isNone
    · simp [PasskeyServer.construct, hs, he] at hok
    all_goals
      simp [PasskeyServer.construct, hs, he] at hok
      subst hok
      exact ⟨rfl, rfl⟩

/-- Witness for the amended C3: neither mode configured fails. -/
theorem construct_requires_some_mode_witness :
    PasskeyServer.construct ⟨"My App", "rp.example", [], none, none, none⟩
      = .error .configurationError :=
  (construct_requires_some_mode
    ⟨"My App", "rp.example", [], none, none, none⟩).2.1 rfl rfl

/-- C3 counterexample: configuring both a challenge store and an
encryption key at once does not fail — construction succeeds (the
constructor only rejects the neither-configured case), refuting the
both-configured half of the claim. -/
theorem construct_both_modes_succeeds_cex :
    (PasskeyServer.construct
      ⟨"My App", "rp.example", ["https://rp.example"], some (), none,
        some "0123456789abcdef0123456789abcdef"⟩).isOk = true := rfl

end PasskeyKit
